import Mathlib

/-!
Shallow embedding of the repository's two source modules:

* `src/data_loader.py` — `ProcessedData`, the four loaders' `supports`
  predicates, `TextLoader.load`, `SpreadsheetLoader.load`, and
  `DataLoaderFactory.get_loader`.
* `src/vertex_integration.py` — `GeminiVertexAIProcessor`'s
  `_generate_prompt`, `_get_mime_type`, `_spreadsheet_to_text`,
  `_send_to_gemini` (request shaping only; the network call is an
  abstract parameter), `_format_results`, and `process_file`.

External effects (filesystem reads, PIL/docx/PyPDF2/pandas parsing, the
Vertex AI network call, result persistence) are modelled as parameters:
the functions below receive the already-decoded data those libraries
would produce, and fallible steps return `Except String` where Python
raises an exception whose message is the string.
-/

/-- A scalar metadata value, as stored in the Python metadata dicts
(`int`, `str`, or a list of column names). -/
inductive MetaVal where
  | nat (n : Nat)
  | str (s : String)
  | strList (l : List String)
  deriving DecidableEq

/-- The `data_dict` built by `SpreadsheetLoader.load` (source
`data_loader.py:195-199`): column list, one `column -> value` record per
row, and the pandas `df.shape` pair `(row count, column count)`. -/
structure StructuredTable where
  columns : List String
  data : List (List (String × String))
  shape : Nat × Nat
  deriving DecidableEq

/-- `ProcessedData.content` is `Any` in Python: raw image bytes, decoded
text, or the spreadsheet `data_dict`. -/
inductive Content where
  | bytes (b : List Nat)
  | text (t : String)
  | table (t : StructuredTable)
  deriving DecidableEq

/-- The `ProcessedData` dataclass (`data_loader.py:19-25`). -/
structure ProcessedData where
  content : Content
  metadata : List (String × MetaVal)
  data_type : String
  source_file : String
  deriving DecidableEq

/-- The four registered loader classes, as a tag type. -/
inductive Loader where
  | image
  | text
  | document
  | spreadsheet
  deriving DecidableEq

/-- Python `str.lower()`: lowercase each character. `Char.toLower`
lowercases exactly the ASCII range, which covers every case exercised
by this code (file extensions). -/
def pyLower (s : String) : String := String.mk (s.data.map Char.toLower)

/-- Split a character list at `/` separators (the path separator
handling inside `pathlib.PurePath`). -/
def splitSlash : List Char → List Char → List (List Char)
  | [], acc => [acc.reverse]
  | '/' :: rest, acc => acc.reverse :: splitSlash rest []
  | c :: rest, acc => splitSlash rest (c :: acc)

/-- `pathlib.Path(p).suffix`: take the final path component (pathlib
drops empty components, so trailing slashes are ignored), find the last
dot; the suffix starts there unless the dot is the first or last
character of the name (CPython's `PurePath.suffix`). -/
def pathSuffix (p : String) : String :=
  let name := ((splitSlash p.data []).filter (· ≠ [])).getLastD []
  match ((name.enum.filter (fun q => q.2 == '.')).map Prod.fst).getLast? with
  | some i => if 0 < i ∧ i + 1 < name.length then String.mk (name.drop i) else ""
  | none => ""

/-- `ImageLoader.supports` (`data_loader.py:46-47`). -/
def ImageLoader.supports (file_extension : String) : Bool :=
  [".jpg", ".jpeg", ".png", ".gif", ".bmp", ".webp"].contains (pyLower file_extension)

/-- `TextLoader.supports` (`data_loader.py:76-77`). -/
def TextLoader.supports (file_extension : String) : Bool :=
  [".txt", ".md", ".json", ".xml", ".html"].contains (pyLower file_extension)

/-- `DocumentLoader.supports` (`data_loader.py:114-115`). -/
def DocumentLoader.supports (file_extension : String) : Bool :=
  [".docx", ".pdf"].contains (pyLower file_extension)

/-- `SpreadsheetLoader.supports` (`data_loader.py:182-183`). -/
def SpreadsheetLoader.supports (file_extension : String) : Bool :=
  [".xlsx", ".xls", ".csv"].contains (pyLower file_extension)

/-- Dispatch `supports` over the loader tag. -/
def Loader.supports : Loader → String → Bool
  | .image, e => ImageLoader.supports e
  | .text, e => TextLoader.supports e
  | .document, e => DocumentLoader.supports e
  | .spreadsheet, e => SpreadsheetLoader.supports e

/-- The registration order of `DataLoaderFactory.__init__`
(`data_loader.py:223-228`). -/
def DataLoaderFactory.loaders : List Loader :=
  [.image, .text, .document, .spreadsheet]

/-- `DataLoaderFactory.get_loader` (`data_loader.py:230-238`): lowercase
the path's suffix, return the first registered loader that supports it,
else raise `ValueError`. -/
def DataLoaderFactory.get_loader (file_path : String) : Except String Loader :=
  let file_extension := pyLower (pathSuffix file_path)
  match DataLoaderFactory.loaders.find? (fun l => l.supports file_extension) with
  | some loader => .ok loader
  | none => .error ("No loader available for file type: " ++ file_extension)

/-- Python `str.splitlines` restricted to the terminators `\n`, `\r` and
`\r\n` (the only ones that arise in this development; the further Unicode
line boundaries Python recognises are not modelled). A trailing
terminator produces no extra empty line, and `"".splitlines() == []`. -/
def pySplitlinesAux : List Char → List Char → List String
  | [], acc => if acc.isEmpty then [] else [String.mk acc.reverse]
  | '\r' :: '\n' :: rest, acc => String.mk acc.reverse :: pySplitlinesAux rest []
  | '\r' :: rest, acc => String.mk acc.reverse :: pySplitlinesAux rest []
  | '\n' :: rest, acc => String.mk acc.reverse :: pySplitlinesAux rest []
  | c :: rest, acc => pySplitlinesAux rest (c :: acc)

/-- Python `text.splitlines()`. -/
def pySplitlines (s : String) : List String :=
  pySplitlinesAux s.data []

/-- `TextLoader.load` (`data_loader.py:79-98`). The file read and UTF-8
decode are external I/O: the function takes the decoded text
(`text_content`); the on-disk byte length of the file is the UTF-8 byte
size of that text. Python stores `len(text_content)` — the number of
code points, which `String.length` also counts — under `file_size`. -/
def TextLoader.load (file_path : String) (text_content : String) : ProcessedData :=
  { content := .text text_content
  , metadata :=
      [ ("file_size", .nat text_content.length)
      , ("line_count", .nat (pySplitlines text_content).length)
      , ("encoding", .str "utf-8") ]
  , data_type := "text"
  , source_file := file_path }

/-- The pandas `DataFrame` produced by `read_csv` / `read_excel`: a
column list and rectangular cells, a missing cell (`NaN`) being `none`.
Parsing itself is the pandas library's, hence external. -/
structure DataFrame where
  columns : List String
  rows : List (List (Option String))

/-- `df.fillna('')` applied to one cell: a missing cell becomes the
empty string, a present cell is unchanged. -/
def fillnaCell (c : Option String) : String := c.getD ""

/-- `SpreadsheetLoader.load` (`data_loader.py:185-217`) after pandas has
parsed the file into `df`: `df.fillna('').to_dict('records')` turns each
row into a `column -> value` record, and `shape` is
`(row count, column count)`. `os.path.getsize` is external, passed as
`fsize`. -/
def SpreadsheetLoader.load (file_path : String) (df : DataFrame) (fsize : Nat) :
    ProcessedData :=
  let file_extension := pyLower (pathSuffix file_path)
  let data := df.rows.map (fun r => df.columns.zip (r.map fillnaCell))
  { content := .table
      { columns := df.columns
      , data := data
      , shape := (df.rows.length, df.columns.length) }
  , metadata :=
      [ ("row_count", .nat df.rows.length)
      , ("column_count", .nat df.columns.length)
      , ("columns", .strList df.columns)
      , ("file_size", .nat fsize)
      , ("format", .str (file_extension.drop 1)) ]
  , data_type := "spreadsheet"
  , source_file := file_path }

/-- The `prompts` section of the YAML config consumed by
`_generate_prompt` (`vertex_integration.py:56-65`): four sub-dicts, each
a `prompt_type -> template` mapping, modelled as association lists
(first binding wins on lookup, as in a Python dict with unique keys). -/
structure PromptsConfig where
  image_analysis : List (String × String)
  document_summary : List (String × String)
  spreadsheet_analysis : List (String × String)
  text_processing : List (String × String)

/-- One arm of `_generate_prompt`:
`section.get(prompt_type, section['default'])`. Python evaluates the
fallback argument `section['default']` eagerly, so a missing `default`
key raises `KeyError` even when `prompt_type` is present. -/
def sectionGet (sec : List (String × String)) (prompt_type : String) :
    Except String String :=
  match sec.lookup "default" with
  | none => .error "KeyError: default"
  | some d => .ok ((sec.lookup prompt_type).getD d)

/-- The `if data_type == ...` chain of `_generate_prompt` selecting the
config sub-dict; any unrecognised `data_type` falls into the `else`
branch and uses `text_processing`. -/
def sectionFor (cfg : PromptsConfig) (data_type : String) : List (String × String) :=
  if data_type = "image" then cfg.image_analysis
  else if data_type = "document" then cfg.document_summary
  else if data_type = "spreadsheet" then cfg.spreadsheet_analysis
  else cfg.text_processing

/-- `GeminiVertexAIProcessor._generate_prompt`
(`vertex_integration.py:51-65`). `question` is `Optional[str]`; Python's
`if question:` is true only for a value that is neither `None` nor the
empty string. -/
def GeminiVertexAIProcessor.generate_prompt (cfg : PromptsConfig)
    (data_type : String) (question : Option String) (prompt_type : String) :
    Except String String :=
  if question.getD "" ≠ "" then .ok (question.getD "")
  else sectionGet (sectionFor cfg data_type) prompt_type

/-- `GeminiVertexAIProcessor._get_mime_type`
(`vertex_integration.py:114-125`): fixed lookup on the lowercased path
suffix, with `application/octet-stream` as `dict.get` fallback. -/
def GeminiVertexAIProcessor.get_mime_type (file_path : String) : String :=
  let extension := pyLower (pathSuffix file_path)
  let mime_types : List (String × String) :=
    [ (".jpg", "image/jpeg")
    , (".jpeg", "image/jpeg")
    , (".png", "image/png")
    , (".gif", "image/gif")
    , (".bmp", "image/bmp")
    , (".webp", "image/webp") ]
  (mime_types.lookup extension).getD "application/octet-stream"

/-- One cell of a rendered spreadsheet row: `f"{col}: {row[col]}"`.
Python raises `KeyError` when `col` is missing from the row dict; rows
built by `SpreadsheetLoader.load` always contain every declared column
(pandas frames are rectangular), so on loader-produced tables this total
model agrees with the source. -/
def cellText (row : List (String × String)) (col : String) : String :=
  col ++ ": " ++ (row.lookup col).getD ""

/-- One line of `_spreadsheet_to_text`'s row loop
(`vertex_integration.py:136-137`):
`"Row {i+1}: " + ', '.join(f"{col}: {row[col]}" for col in columns)`. -/
def rowText (columns : List String) (i : Nat) (row : List (String × String)) : String :=
  "Row " ++ toString (i + 1) ++ ": " ++
    String.intercalate ", " (columns.map (cellText row))

/-- The `for i, row in enumerate(data[:10])` loop of
`_spreadsheet_to_text`, with `i` the running index. -/
def renderRows (columns : List String) : Nat → List (List (String × String)) → List String
  | _, [] => []
  | i, row :: rest => rowText columns i row :: renderRows columns (i + 1) rest

/-- The `lines` list built by `GeminiVertexAIProcessor._spreadsheet_to_text`
(`vertex_integration.py:127-143`) before the final `'\n'.join`. Note the
fourth entry keeps the leading `\n` the source embeds in the literal. -/
def GeminiVertexAIProcessor.spreadsheet_to_text_lines (d : StructuredTable) :
    List String :=
  [ "Spreadsheet Data:"
  , "Columns: " ++ String.intercalate ", " d.columns
  , "Total Rows: " ++ toString d.shape.1
  , "\nFirst 10 rows of data:" ]
  ++ renderRows d.columns 0 (d.data.take 10)
  ++ (if d.shape.1 > 10
      then ["... and " ++ toString (d.shape.1 - 10) ++ " more rows"]
      else [])

/-- `GeminiVertexAIProcessor._spreadsheet_to_text`: the joined text. -/
def GeminiVertexAIProcessor.spreadsheet_to_text (d : StructuredTable) : String :=
  String.intercalate "\n" (GeminiVertexAIProcessor.spreadsheet_to_text_lines d)

/-- A `contents` entry of the Vertex AI request: an inline-bytes part
(`types.Part.from_bytes`) or a plain string. -/
inductive ReqPart where
  | bytes (data : List Nat) (mime_type : String)
  | text (s : String)
  deriving DecidableEq

/-- Projection used where the source passes `processed_data.content` to a
bytes slot; loaders establish that image records hold bytes. -/
def Content.asBytes : Content → List Nat
  | .bytes b => b
  | _ => []

/-- Projection used where the source passes `processed_data.content` to a
text slot; loaders establish that text/document records hold text. -/
def Content.asText : Content → String
  | .text t => t
  | _ => ""

/-- Projection used where the source passes `processed_data.content` to
`_spreadsheet_to_text`; loaders establish that spreadsheet records hold a
`StructuredTable`. -/
def Content.asTable : Content → StructuredTable
  | .table t => t
  | _ => { columns := [], data := [], shape := (0, 0) }

/-- The `contents` list `_send_to_gemini` (`vertex_integration.py:67-108`)
builds for the generation call: inline bytes plus prompt for an image,
flattened table text plus prompt for a spreadsheet, raw text plus prompt
otherwise. -/
def GeminiVertexAIProcessor.buildContents (pd : ProcessedData) (prompt : String) :
    List ReqPart :=
  if pd.data_type = "image" then
    [ ReqPart.bytes pd.content.asBytes (GeminiVertexAIProcessor.get_mime_type pd.source_file)
    , ReqPart.text prompt ]
  else if pd.data_type = "spreadsheet" then
    [ ReqPart.text (GeminiVertexAIProcessor.spreadsheet_to_text pd.content.asTable)
    , ReqPart.text prompt ]
  else
    [ ReqPart.text pd.content.asText, ReqPart.text prompt ]

/-- `GeminiVertexAIProcessor._send_to_gemini`: shape the request and
invoke the external generation client (`client.models.generate_content`,
abstracted as `client`, returning the response text or an error that the
method re-raises unchanged). -/
def GeminiVertexAIProcessor.send_to_gemini
    (client : List ReqPart → Except String String)
    (pd : ProcessedData) (prompt : String) : Except String String :=
  client (GeminiVertexAIProcessor.buildContents pd prompt)

/-- The results dict assembled by `_format_results`
(`vertex_integration.py:145-163`). -/
structure ResultDict where
  source_file : String
  data_type : String
  prompt : String
  response : String
  metadata : List (String × MetaVal)
  deriving DecidableEq

/-- `GeminiVertexAIProcessor._format_results`: copy the record's fields,
merge `gemini_model` and `processing_timestamp` into the metadata (the
dict-literal `**` merge; the loaders never use those two keys, so no
overriding occurs). The optional `_save_results` disk write is an
external sink and not modelled. -/
def GeminiVertexAIProcessor.format_results (gemini_model timestamp : String)
    (pd : ProcessedData) (response_text prompt : String) : ResultDict :=
  { source_file := pd.source_file
  , data_type := pd.data_type
  , prompt := prompt
  , response := response_text
  , metadata := pd.metadata ++
      [ ("gemini_model", .str gemini_model)
      , ("processing_timestamp", .str timestamp) ] }

/-- `GeminiVertexAIProcessor.process_file` (`vertex_integration.py:31-49`):
resolve the loader, load, pick the prompt, call the generation client,
format the envelope. `loadData` abstracts the selected loader's
filesystem-reading `load` method; each stage's `try/except` logs and
re-raises, which in `Except` is the monadic bind. -/
def GeminiVertexAIProcessor.process_file (cfg : PromptsConfig)
    (gemini_model timestamp : String)
    (loadData : Loader → String → Except String ProcessedData)
    (client : List ReqPart → Except String String)
    (file_path : String) (question : Option String) (prompt_type : String) :
    Except String ResultDict := do
  let loader ← DataLoaderFactory.get_loader file_path
  let processed_data ← loadData loader file_path
  let prompt ← GeminiVertexAIProcessor.generate_prompt cfg
    processed_data.data_type question prompt_type
  let response ← GeminiVertexAIProcessor.send_to_gemini client processed_data prompt
  return GeminiVertexAIProcessor.format_results gemini_model timestamp
    processed_data response prompt

/-! ## Theorems -/

/-- Unfolding of `get_mime_type` to the underlying `dict.get`. -/
theorem get_mime_type_eq_lookup (file_path : String) :
    GeminiVertexAIProcessor.get_mime_type file_path =
      (([ (".jpg", "image/jpeg")
        , (".jpeg", "image/jpeg")
        , (".png", "image/png")
        , (".gif", "image/gif")
        , (".bmp", "image/bmp")
        , (".webp", "image/webp") ] : List (String × String)).lookup
          (pyLower (pathSuffix file_path))).getD "application/octet-stream" := rfl

/-- C10: an empty-string question does not override the configured
templates — prompt selection with `question = some ""` returns exactly
what it returns with no question at all, for every data kind and
prompt type (Python's `if question:` is false for `""`). -/
theorem c10_empty_question_no_override (cfg : PromptsConfig)
    (data_type prompt_type : String) :
    GeminiVertexAIProcessor.generate_prompt cfg data_type (some "") prompt_type =
    GeminiVertexAIProcessor.generate_prompt cfg data_type none prompt_type := rfl

/-- A concrete prompts config: every section has a `default` template,
and `text_processing` also maps `"special"`. -/
def c3Cfg : PromptsConfig :=
  { image_analysis := [("default", "IA")]
  , document_summary := [("default", "DS")]
  , spreadsheet_analysis := [("default", "SA")]
  , text_processing := [("default", "TP"), ("special", "SP")] }

/-- C3 counterexample: the question `some ""` is a supplied question,
yet prompt selection returns the configured template `"SP"` rather than
the question — `if question:` is false for the empty string, so an
explicit empty question does not override the templates. -/
theorem c3_counterexample :
    GeminiVertexAIProcessor.generate_prompt c3Cfg "text" (some "") "special" =
      .ok "SP" ∧
    GeminiVertexAIProcessor.generate_prompt c3Cfg "text" (some "") "special" ≠
      .ok "" := by
  refine ⟨rfl, fun h => ?_⟩
  exact absurd (Except.ok.inj h) (by decide)

/-- C3 amended: a supplied NON-EMPTY question is returned as the prompt,
overriding all configured templates; when the question is absent or
empty and `prompt_type` is not a key of the kind's template section, the
section's `default` template is returned. -/
theorem c3_generate_prompt_amended (cfg : PromptsConfig)
    (data_type q prompt_type d : String) :
    (q ≠ "" →
      GeminiVertexAIProcessor.generate_prompt cfg data_type (some q) prompt_type =
        .ok q) ∧
    ((sectionFor cfg data_type).lookup prompt_type = none →
     (sectionFor cfg data_type).lookup "default" = some d →
      GeminiVertexAIProcessor.generate_prompt cfg data_type none prompt_type =
        .ok d) ∧
    ((sectionFor cfg data_type).lookup prompt_type = none →
     (sectionFor cfg data_type).lookup "default" = some d →
      GeminiVertexAIProcessor.generate_prompt cfg data_type (some "") prompt_type =
        .ok d) := by
  refine ⟨fun hq => ?_, fun hpt hd => ?_, fun hpt hd => ?_⟩ <;>
    simp [GeminiVertexAIProcessor.generate_prompt, sectionGet, *]

/-- Witness for `c3_generate_prompt_amended` at a concrete config. -/
theorem c3_generate_prompt_amended_witness :
    GeminiVertexAIProcessor.generate_prompt c3Cfg "text" (some "Q") "zzz" =
      .ok "Q" ∧
    GeminiVertexAIProcessor.generate_prompt c3Cfg "text" none "zzz" =
      .ok "TP" :=
  ⟨(c3_generate_prompt_amended c3Cfg "text" "Q" "zzz" "TP").1 (by decide),
   (c3_generate_prompt_amended c3Cfg "text" "Q" "zzz" "TP").2.1 (by decide)
     (by decide)⟩

/-- C5: the MIME lookup is a total function of the lowercased path
suffix — each tabled extension maps to its image MIME type, and any
suffix outside the table maps to `application/octet-stream`; there is no
failing case. -/
theorem c5_mime_lookup (file_path : String) :
    (pyLower (pathSuffix file_path) = ".png" →
      GeminiVertexAIProcessor.get_mime_type file_path = "image/png") ∧
    (pyLower (pathSuffix file_path) = ".jpg" →
      GeminiVertexAIProcessor.get_mime_type file_path = "image/jpeg") ∧
    (pyLower (pathSuffix file_path) = ".jpeg" →
      GeminiVertexAIProcessor.get_mime_type file_path = "image/jpeg") ∧
    (pyLower (pathSuffix file_path) = ".gif" →
      GeminiVertexAIProcessor.get_mime_type file_path = "image/gif") ∧
    (pyLower (pathSuffix file_path) = ".bmp" →
      GeminiVertexAIProcessor.get_mime_type file_path = "image/bmp") ∧
    (pyLower (pathSuffix file_path) = ".webp" →
      GeminiVertexAIProcessor.get_mime_type file_path = "image/webp") ∧
    (pyLower (pathSuffix file_path) ∉
        ([".jpg", ".jpeg", ".png", ".gif", ".bmp", ".webp"] : List String) →
      GeminiVertexAIProcessor.get_mime_type file_path =
        "application/octet-stream") := by
  refine ⟨fun h => ?_, fun h => ?_, fun h => ?_, fun h => ?_, fun h => ?_,
    fun h => ?_, fun h => ?_⟩ <;> rw [get_mime_type_eq_lookup]
  · rw [h]; rfl
  · rw [h]; rfl
  · rw [h]; rfl
  · rw [h]; rfl
  · rw [h]; rfl
  · rw [h]; rfl
  · simp only [List.mem_cons, List.not_mem_nil, or_false, not_or] at h
    obtain ⟨h1, h2, h3, h4, h5, h6⟩ := h
    have e1 := beq_eq_false_iff_ne.mpr h1
    have e2 := beq_eq_false_iff_ne.mpr h2
    have e3 := beq_eq_false_iff_ne.mpr h3
    have e4 := beq_eq_false_iff_ne.mpr h4
    have e5 := beq_eq_false_iff_ne.mpr h5
    have e6 := beq_eq_false_iff_ne.mpr h6
    simp [List.lookup, e1, e2, e3, e4, e5, e6]

/-- Witness for `c5_mime_lookup`: `.png` and an unknown extension. -/
theorem c5_mime_lookup_witness :
    GeminiVertexAIProcessor.get_mime_type "photo.png" = "image/png" ∧
    GeminiVertexAIProcessor.get_mime_type "file.xyz" =
      "application/octet-stream" :=
  ⟨(c5_mime_lookup "photo.png").1 (by decide),
   (c5_mime_lookup "file.xyz").2.2.2.2.2.2 (by decide)⟩

/-- C6 counterexample: for the one-character file `"é"` (two bytes on
disk in UTF-8) the text loader stores `file_size = 1` — the code-point
count `len(text_content)` — which is not the file's byte length `2`. -/
theorem c6_counterexample :
    (TextLoader.load "f.txt" "é").metadata.lookup "file_size" ≠
      some (.nat ("é" : String).utf8ByteSize) ∧
    (TextLoader.load "f.txt" "é").metadata.lookup "file_size" =
      some (.nat 1) ∧
    ("é" : String).utf8ByteSize = 2 := by
  refine ⟨?_, by decide, by decide⟩
  decide

/-- C6 amended: the text loader's metadata stores the character count of
the decoded text (Python's `len`, equal to the byte length only for
all-ASCII content) under `file_size`, and the `splitlines` count under
`line_count`; in particular a 3-line file yields `line_count = 3`. -/
theorem c6_text_metadata_amended (file_path text_content : String) :
    (TextLoader.load file_path text_content).metadata.lookup "file_size" =
      some (.nat text_content.length) ∧
    (TextLoader.load file_path text_content).metadata.lookup "line_count" =
      some (.nat (pySplitlines text_content).length) ∧
    ((pySplitlines text_content).length = 3 →
      (TextLoader.load file_path text_content).metadata.lookup "line_count" =
        some (.nat 3)) := by
  refine ⟨rfl, rfl, fun h => ?_⟩
  simp [TextLoader.load, List.lookup, h]

/-- Witness for `c6_text_metadata_amended` at a 3-line file. -/
theorem c6_text_metadata_amended_witness :
    (TextLoader.load "f.txt" "a\nb\nc").metadata.lookup "line_count" =
      some (.nat 3) :=
  (c6_text_metadata_amended "f.txt" "a\nb\nc").2.2 (by decide)

/-- C4: registry resolution. If some registered loader supports the
path's lowercased suffix, `get_loader` returns a loader whose `supports`
is true for it; if no registered loader supports it, `get_loader` fails
with the `ValueError` message and returns no loader. -/
theorem c4_get_loader_resolution (file_path : String) :
    (∀ l, l ∈ DataLoaderFactory.loaders →
        Loader.supports l (pyLower (pathSuffix file_path)) = true →
      ∃ l', DataLoaderFactory.get_loader file_path = .ok l' ∧
        Loader.supports l' (pyLower (pathSuffix file_path)) = true) ∧
    ((∀ l, l ∈ DataLoaderFactory.loaders →
        Loader.supports l (pyLower (pathSuffix file_path)) = false) →
      DataLoaderFactory.get_loader file_path =
        .error ("No loader available for file type: " ++
          pyLower (pathSuffix file_path))) := by
  constructor
  · intro l hl hs
    rcases hfind : DataLoaderFactory.loaders.find?
        (fun l => l.supports (pyLower (pathSuffix file_path))) with _ | l'
    · exfalso
      have := List.find?_eq_none.mp hfind l hl
      simp [hs] at this
    · have hp := @List.find?_some Loader
        (fun l => Loader.supports l (pyLower (pathSuffix file_path))) l' _ hfind
      refine ⟨l', ?_, hp⟩
      simp [DataLoaderFactory.get_loader, hfind]
  · intro hall
    have hfind : DataLoaderFactory.loaders.find?
        (fun l => l.supports (pyLower (pathSuffix file_path))) = none := by
      apply List.find?_eq_none.mpr
      intro x hx
      simp [hall x hx]
    simp [DataLoaderFactory.get_loader, hfind]

/-- Witness for `c4_get_loader_resolution`: a supported and an
unsupported extension. -/
theorem c4_get_loader_resolution_witness :
    (∃ l', DataLoaderFactory.get_loader "a.png" = .ok l' ∧
      Loader.supports l' (pyLower (pathSuffix "a.png")) = true) ∧
    DataLoaderFactory.get_loader "a.xyz" =
      .error ("No loader available for file type: " ++
        pyLower (pathSuffix "a.xyz")) :=
  ⟨(c4_get_loader_resolution "a.png").1 .image (by decide) (by decide),
   (c4_get_loader_resolution "a.xyz").2 (by decide)⟩

/-- The image and text extension lists share no element. -/
theorem disj_img_txt (t : String)
    (h1 : t ∈ ([".jpg", ".jpeg", ".png", ".gif", ".bmp", ".webp"] : List String))
    (h2 : t ∈ ([".txt", ".md", ".json", ".xml", ".html"] : List String)) :
    False := by
  simp only [List.mem_cons, List.not_mem_nil, or_false] at h1 h2
  rcases h1 with rfl | rfl | rfl | rfl | rfl | rfl <;> exact absurd h2 (by decide)

/-- The image and document extension lists share no element. -/
theorem disj_img_doc (t : String)
    (h1 : t ∈ ([".jpg", ".jpeg", ".png", ".gif", ".bmp", ".webp"] : List String))
    (h2 : t ∈ ([".docx", ".pdf"] : List String)) : False := by
  simp only [List.mem_cons, List.not_mem_nil, or_false] at h1 h2
  rcases h1 with rfl | rfl | rfl | rfl | rfl | rfl <;> exact absurd h2 (by decide)

/-- The image and spreadsheet extension lists share no element. -/
theorem disj_img_sheet (t : String)
    (h1 : t ∈ ([".jpg", ".jpeg", ".png", ".gif", ".bmp", ".webp"] : List String))
    (h2 : t ∈ ([".xlsx", ".xls", ".csv"] : List String)) : False := by
  simp only [List.mem_cons, List.not_mem_nil, or_false] at h1 h2
  rcases h1 with rfl | rfl | rfl | rfl | rfl | rfl <;> exact absurd h2 (by decide)

/-- The text and document extension lists share no element. -/
theorem disj_txt_doc (t : String)
    (h1 : t ∈ ([".txt", ".md", ".json", ".xml", ".html"] : List String))
    (h2 : t ∈ ([".docx", ".pdf"] : List String)) : False := by
  simp only [List.mem_cons, List.not_mem_nil, or_false] at h1 h2
  rcases h1 with rfl | rfl | rfl | rfl | rfl <;> exact absurd h2 (by decide)

/-- The text and spreadsheet extension lists share no element. -/
theorem disj_txt_sheet (t : String)
    (h1 : t ∈ ([".txt", ".md", ".json", ".xml", ".html"] : List String))
    (h2 : t ∈ ([".xlsx", ".xls", ".csv"] : List String)) : False := by
  simp only [List.mem_cons, List.not_mem_nil, or_false] at h1 h2
  rcases h1 with rfl | rfl | rfl | rfl | rfl <;> exact absurd h2 (by decide)

/-- The document and spreadsheet extension lists share no element. -/
theorem disj_doc_sheet (t : String)
    (h1 : t ∈ ([".docx", ".pdf"] : List String))
    (h2 : t ∈ ([".xlsx", ".xls", ".csv"] : List String)) : False := by
  simp only [List.mem_cons, List.not_mem_nil, or_false] at h1 h2
  rcases h1 with rfl | rfl <;> exact absurd h2 (by decide)

/-- C9: the registered loaders' extension sets are pairwise disjoint —
for every extension, at most one registered loader's `supports` is true,
so first-match selection does not depend on registration order. -/
theorem c9_extension_sets_disjoint (ext : String) :
    ∀ l1, l1 ∈ DataLoaderFactory.loaders →
    ∀ l2, l2 ∈ DataLoaderFactory.loaders →
      Loader.supports l1 ext = true → Loader.supports l2 ext = true →
      l1 = l2 := by
  intro l1 _ l2 _ h1 h2
  cases l1 <;> cases l2 <;> try rfl
  · exact (disj_img_txt (pyLower ext)
      (by simpa [Loader.supports, ImageLoader.supports] using h1)
      (by simpa [Loader.supports, TextLoader.supports] using h2)).elim
  · exact (disj_img_doc (pyLower ext)
      (by simpa [Loader.supports, ImageLoader.supports] using h1)
      (by simpa [Loader.supports, DocumentLoader.supports] using h2)).elim
  · exact (disj_img_sheet (pyLower ext)
      (by simpa [Loader.supports, ImageLoader.supports] using h1)
      (by simpa [Loader.supports, SpreadsheetLoader.supports] using h2)).elim
  · exact (disj_img_txt (pyLower ext)
      (by simpa [Loader.supports, ImageLoader.supports] using h2)
      (by simpa [Loader.supports, TextLoader.supports] using h1)).elim
  · exact (disj_txt_doc (pyLower ext)
      (by simpa [Loader.supports, TextLoader.supports] using h1)
      (by simpa [Loader.supports, DocumentLoader.supports] using h2)).elim
  · exact (disj_txt_sheet (pyLower ext)
      (by simpa [Loader.supports, TextLoader.supports] using h1)
      (by simpa [Loader.supports, SpreadsheetLoader.supports] using h2)).elim
  · exact (disj_img_doc (pyLower ext)
      (by simpa [Loader.supports, ImageLoader.supports] using h2)
      (by simpa [Loader.supports, DocumentLoader.supports] using h1)).elim
  · exact (disj_txt_doc (pyLower ext)
      (by simpa [Loader.supports, TextLoader.supports] using h2)
      (by simpa [Loader.supports, DocumentLoader.supports] using h1)).elim
  · exact (disj_doc_sheet (pyLower ext)
      (by simpa [Loader.supports, DocumentLoader.supports] using h1)
      (by simpa [Loader.supports, SpreadsheetLoader.supports] using h2)).elim
  · exact (disj_img_sheet (pyLower ext)
      (by simpa [Loader.supports, ImageLoader.supports] using h2)
      (by simpa [Loader.supports, SpreadsheetLoader.supports] using h1)).elim
  · exact (disj_txt_sheet (pyLower ext)
      (by simpa [Loader.supports, TextLoader.supports] using h2)
      (by simpa [Loader.supports, SpreadsheetLoader.supports] using h1)).elim
  · exact (disj_doc_sheet (pyLower ext)
      (by simpa [Loader.supports, DocumentLoader.supports] using h2)
      (by simpa [Loader.supports, SpreadsheetLoader.supports] using h1)).elim

/-- Witness for `c9_extension_sets_disjoint` at `.png`. -/
theorem c9_extension_sets_disjoint_witness : Loader.image = Loader.image :=
  c9_extension_sets_disjoint ".png" .image (by decide) .image (by decide)
    (by decide) (by decide)

/-- The row loop of `_spreadsheet_to_text` renders, in order, each row
paired with its running index. -/
theorem renderRows_eq_enumFrom (columns : List String) (i : Nat)
    (rs : List (List (String × String))) :
    renderRows columns i rs =
      (List.enumFrom i rs).map (fun p => rowText columns p.1 p.2) := by
  induction rs generalizing i with
  | nil => rfl
  | cons r rest ih => simp [renderRows, List.enumFrom, ih]

/-- C1: for every loaded spreadsheet table, the flattened text's lines
are: a header line listing the columns, a total-row-count line (and the
`First 10 rows` banner), one `"Row i: col: value, ..."` line per row for
exactly the first `min (row count) 10` rows, then exactly one elision
line `"... and N more rows"` with `N = row count - 10` when the table
has more than 10 rows and nothing otherwise. -/
theorem c1_spreadsheet_flatten (file_path : String) (df : DataFrame) (fsize : Nat) :
    GeminiVertexAIProcessor.spreadsheet_to_text_lines
        (SpreadsheetLoader.load file_path df fsize).content.asTable =
      [ "Spreadsheet Data:"
      , "Columns: " ++ String.intercalate ", " df.columns
      , "Total Rows: " ++ toString df.rows.length
      , "\nFirst 10 rows of data:" ]
      ++ (List.enum ((df.rows.map
            (fun r => df.columns.zip (r.map fillnaCell))).take 10)).map
           (fun p => "Row " ++ toString (p.1 + 1) ++ ": " ++
             String.intercalate ", " (df.columns.map (cellText p.2)))
      ++ (if df.rows.length > 10
          then ["... and " ++ toString (df.rows.length - 10) ++ " more rows"]
          else []) ∧
    ((List.enum ((df.rows.map
        (fun r => df.columns.zip (r.map fillnaCell))).take 10)).map
       (fun p => "Row " ++ toString (p.1 + 1) ++ ": " ++
         String.intercalate ", " (df.columns.map (cellText p.2)))).length =
      min df.rows.length 10 := by
  constructor
  · simp only [SpreadsheetLoader.load, Content.asTable,
      GeminiVertexAIProcessor.spreadsheet_to_text_lines]
    rw [renderRows_eq_enumFrom]
    simp [rowText, List.enum]
  · simp [List.length_take, Nat.min_comm]

/-- Looking up the `j`-th column of a duplicate-free column list in the
record zipping columns with values returns the `j`-th value. -/
theorem lookup_zip_of_nodup : ∀ (cols vals : List String) (j : Nat)
    (hn : cols.Nodup) (hj : j < cols.length) (hjv : j < vals.length),
    (cols.zip vals).lookup (cols.get ⟨j, hj⟩) = some (vals.get ⟨j, hjv⟩)
  | [], _, j, _, hj, _ => by simp at hj
  | c :: cs, [], j, _, _, hjv => by simp at hjv
  | c :: cs, v :: vs, 0, hn, hj, hjv => by simp [List.lookup]
  | c :: cs, v :: vs, j + 1, hn, hj, hjv => by
    have hj' : j < cs.length := Nat.lt_of_succ_lt_succ hj
    have hjv' : j < vs.length := Nat.lt_of_succ_lt_succ hjv
    have hne : (cs.get ⟨j, hj'⟩) ≠ c := by
      intro he
      exact (List.nodup_cons.mp hn).1 (he ▸ List.get_mem cs j hj')
    simp only [List.zip_cons_cons, List.lookup, List.get_cons_succ,
      beq_eq_false_iff_ne.mpr hne]
    exact lookup_zip_of_nodup cs vs j (List.nodup_cons.mp hn).2 hj' hjv'

/-- Appending the empty string is the identity. -/
theorem str_append_empty (s : String) : s ++ "" = s := by
  cases s with
  | mk l => exact congrArg String.mk (List.append_nil l)

/-- C2: in a table produced by the spreadsheet loader (whose column
names pandas keeps unique), every missing (`NaN`) cell is normalized to
the empty string: the loaded record maps the cell's column to `""`, and
the rendered cell of the flattened row line is exactly
`"col: "` — never the token `"null"` or `"None"`. -/
theorem c2_missing_cell_empty (file_path : String) (df : DataFrame) (fsize : Nat)
    (i j : Nat) (hn : df.columns.Nodup)
    (hi : i < df.rows.length) (hj : j < df.columns.length)
    (hjr : j < (df.rows.get ⟨i, hi⟩).length)
    (hmiss : (df.rows.get ⟨i, hi⟩).get ⟨j, hjr⟩ = none) :
    ∃ row,
      ((SpreadsheetLoader.load file_path df fsize).content.asTable.data)[i]? =
        some row ∧
      row.lookup (df.columns.get ⟨j, hj⟩) = some "" ∧
      (df.columns.map (cellText row))[j]? =
        some (df.columns.get ⟨j, hj⟩ ++ ": ") := by
  refine ⟨df.columns.zip ((df.rows.get ⟨i, hi⟩).map fillnaCell), ?_, ?_, ?_⟩
  · simp only [SpreadsheetLoader.load, Content.asTable]
    rw [List.getElem?_map]
    simp [List.getElem?_eq_getElem hi]
  · have hjv : j < ((df.rows.get ⟨i, hi⟩).map fillnaCell).length := by
      simpa using hjr
    rw [lookup_zip_of_nodup df.columns _ j hn hj hjv]
    simp only [List.get_map]
    rw [hmiss]
    rfl
  · have hlu : (df.columns.zip ((df.rows.get ⟨i, hi⟩).map fillnaCell)).lookup
        (df.columns.get ⟨j, hj⟩) = some "" := by
      have hjv : j < ((df.rows.get ⟨i, hi⟩).map fillnaCell).length := by
        simpa using hjr
      rw [lookup_zip_of_nodup df.columns _ j hn hj hjv]
      simp only [List.get_map]
      rw [hmiss]
      rfl
    have hcell : cellText (df.columns.zip ((df.rows.get ⟨i, hi⟩).map fillnaCell))
        (df.columns.get ⟨j, hj⟩) = df.columns.get ⟨j, hj⟩ ++ ": " := by
      simp only [cellText, hlu, Option.getD_some]
      exact str_append_empty _
    rw [List.getElem?_map, List.getElem?_eq_getElem hj]
    simp only [Option.map_some']
    exact congrArg some hcell

/-- A one-row frame whose `age` cell is missing. -/
def c2Df : DataFrame := { columns := ["name", "age"], rows := [[some "Bob", none]] }

/-- Witness for `c2_missing_cell_empty`: the missing `age` cell. -/
theorem c2_missing_cell_empty_witness :
    ∃ row,
      ((SpreadsheetLoader.load "d.csv" c2Df 7).content.asTable.data)[0]? =
        some row ∧
      row.lookup (c2Df.columns.get ⟨1, by decide⟩) = some "" ∧
      (c2Df.columns.map (cellText row))[1]? =
        some (c2Df.columns.get ⟨1, by decide⟩ ++ ": ") :=
  c2_missing_cell_empty "d.csv" c2Df 7 0 1 (by decide) (by decide) (by decide)
    (by decide) (by decide)

/-- The CSV of the end-to-end scenario: columns `[name, age]`, rows
`[("Ann","30"), ("Bob", missing)]` (the empty `age` cell parses as NaN). -/
def c7Df : DataFrame :=
  { columns := ["name", "age"]
  , rows := [[some "Ann", some "30"], [some "Bob", none]] }

/-- Prompts config for the end-to-end scenario: every section has a
`default` template. -/
def c7Cfg : PromptsConfig :=
  { image_analysis := [("default", "IA")]
  , document_summary := [("default", "DS")]
  , spreadsheet_analysis := [("default", "Analyze")]
  , text_processing := [("default", "TP")] }

/-- Stub loader for the scenario: loading always yields the parsed CSV. -/
def c7LoadData : Loader → String → Except String ProcessedData :=
  fun _ p => .ok (SpreadsheetLoader.load p c7Df 42)

/-- Stubbed generation client returning `"ok"`. -/
def c7Client : List ReqPart → Except String String := fun _ => .ok "ok"

/-- C7: processing the scenario CSV with prompt_type `"default"` and the
stubbed client yields an envelope with `data_type = "spreadsheet"` and
`response = "ok"`, and the flattened spreadsheet text contains the
fragment `"Row 2: name: Bob, age: "`. -/
theorem c7_end_to_end :
    (∃ r, GeminiVertexAIProcessor.process_file c7Cfg "gemini-2.0"
        "2026-10-12T00:00:00" c7LoadData c7Client "data.csv" none "default" =
        .ok r ∧
      r.data_type = "spreadsheet" ∧ r.response = "ok") ∧
    (∃ pre post,
      GeminiVertexAIProcessor.spreadsheet_to_text
          (SpreadsheetLoader.load "data.csv" c7Df 42).content.asTable =
        pre ++ "Row 2: name: Bob, age: " ++ post) := by
  refine ⟨⟨GeminiVertexAIProcessor.format_results "gemini-2.0"
      "2026-10-12T00:00:00" (SpreadsheetLoader.load "data.csv" c7Df 42)
      "ok" "Analyze", ?_, rfl, rfl⟩,
    ⟨"Spreadsheet Data:\nColumns: name, age\nTotal Rows: 2\n\nFirst 10 rows of data:\nRow 1: name: Ann, age: 30\n",
     "", ?_⟩⟩
  · rfl
  · decide

/-- C8: failure of any stage of `process_file` — loader resolution, the
load, prompt selection, or the generation call — propagates the same
error to the caller, and no envelope is produced; when every stage
succeeds, the formatted envelope of the loaded data is returned. -/
theorem c8_error_propagation (cfg : PromptsConfig) (gm ts : String)
    (loadData : Loader → String → Except String ProcessedData)
    (client : List ReqPart → Except String String)
    (file_path : String) (question : Option String) (prompt_type : String) :
    (∀ e, DataLoaderFactory.get_loader file_path = .error e →
      GeminiVertexAIProcessor.process_file cfg gm ts loadData client
        file_path question prompt_type = .error e) ∧
    (∀ l e, DataLoaderFactory.get_loader file_path = .ok l →
      loadData l file_path = .error e →
      GeminiVertexAIProcessor.process_file cfg gm ts loadData client
        file_path question prompt_type = .error e) ∧
    (∀ l pd e, DataLoaderFactory.get_loader file_path = .ok l →
      loadData l file_path = .ok pd →
      GeminiVertexAIProcessor.generate_prompt cfg pd.data_type question
        prompt_type = .error e →
      GeminiVertexAIProcessor.process_file cfg gm ts loadData client
        file_path question prompt_type = .error e) ∧
    (∀ l pd prompt e, DataLoaderFactory.get_loader file_path = .ok l →
      loadData l file_path = .ok pd →
      GeminiVertexAIProcessor.generate_prompt cfg pd.data_type question
        prompt_type = .ok prompt →
      GeminiVertexAIProcessor.send_to_gemini client pd prompt = .error e →
      GeminiVertexAIProcessor.process_file cfg gm ts loadData client
        file_path question prompt_type = .error e) ∧
    (∀ l pd prompt resp, DataLoaderFactory.get_loader file_path = .ok l →
      loadData l file_path = .ok pd →
      GeminiVertexAIProcessor.generate_prompt cfg pd.data_type question
        prompt_type = .ok prompt →
      GeminiVertexAIProcessor.send_to_gemini client pd prompt = .ok resp →
      GeminiVertexAIProcessor.process_file cfg gm ts loadData client
        file_path question prompt_type =
        .ok (GeminiVertexAIProcessor.format_results gm ts pd resp prompt)) := by
  refine ⟨fun e h1 => ?_, fun l e h1 h2 => ?_, fun l pd e h1 h2 h3 => ?_,
    fun l pd prompt e h1 h2 h3 h4 => ?_, fun l pd prompt resp h1 h2 h3 h4 => ?_⟩ <;>
    simp [GeminiVertexAIProcessor.process_file, bind, Except.bind, pure,
      Except.pure, *]

/-- Witness for `c8_error_propagation`: an unsupported extension fails
resolution with the `ValueError` message, and with no-fail stubs the
envelope is produced. -/
theorem c8_error_propagation_witness :
    GeminiVertexAIProcessor.process_file c7Cfg "m" "t"
      (fun _ _ => .error "read failed") c7Client "a.xyz" none "default" =
      .error "No loader available for file type: .xyz" ∧
    GeminiVertexAIProcessor.process_file c7Cfg "m" "t"
      (fun _ _ => .error "read failed") c7Client "a.png" none "default" =
      .error "read failed" :=
  ⟨(c8_error_propagation c7Cfg "m" "t" (fun _ _ => .error "read failed")
      c7Client "a.xyz" none "default").1
      "No loader available for file type: .xyz" rfl,
   (c8_error_propagation c7Cfg "m" "t" (fun _ _ => .error "read failed")
      c7Client "a.png" none "default").2.1 .image "read failed" rfl rfl⟩
